import Mathlib

/-!
Verification of the aswBase HTTP test-automation harness core:
the JSON field-path extraction engine (`ClientBase.extract_json_field`,
`extract_json_path`, `extract_json_filtered` in `core/clientbase.py`) and
the declarative assertion-dispatch engine (`ResponseAssertor` in
`core/assertion_utils.py`).

Modelling conventions:
* JSON numbers are modelled as integers (every number appearing in the
  verified behaviours is an integer; floats are out of scope).
* A Python dict is modelled as an association list with pairwise-distinct
  keys, in insertion order; dict assignment that overwrites keeps the
  original position (`dictInsert`).
* Python `None` is JSON null (`Json.null`); `x is None` on JSON data is
  equality with null, since `None` is a singleton.
* A response body is `Option Json`: `none` means the body was not parsable
  as JSON, so `ClientBase.json` returns the caller's default.
* Exceptions that a function catches and converts to a default are
  modelled by `Option`/`Except` failure values.
-/

namespace AswBase

/-- A deserialized JSON value (numbers restricted to integers). -/
inductive Json where
  | null
  | bool (b : Bool)
  | num (n : Int)
  | str (s : String)
  | arr (elems : List Json)
  | obj (fields : List (String × Json))
deriving Repr

mutual
/-- Structural equality of JSON values, embedding Python `==` on
deserialized JSON data (objects are compared field-by-field in order;
objects produced from one JSON document keep a fixed field order). -/
def jsonBeq : Json → Json → Bool
  | Json.null, Json.null => true
  | Json.bool a, Json.bool b => a == b
  | Json.num a, Json.num b => a == b
  | Json.str a, Json.str b => a == b
  | Json.arr a, Json.arr b => jsonListBeq a b
  | Json.obj a, Json.obj b => jsonObjBeq a b
  | _, _ => false

def jsonListBeq : List Json → List Json → Bool
  | [], [] => true
  | x :: xs, y :: ys => jsonBeq x y && jsonListBeq xs ys
  | _, _ => false

def jsonObjBeq : List (String × Json) → List (String × Json) → Bool
  | [], [] => true
  | (k1, v1) :: xs, (k2, v2) :: ys => k1 == k2 && jsonBeq v1 v2 && jsonObjBeq xs ys
  | _, _ => false
end

/-- First-match lookup in an association list: Python `d[k]` / `k in d`
on a dict (keys are pairwise distinct in any real dict). -/
def lookupKey (k : String) : List (String × Json) → Option Json
  | [] => none
  | (k', v) :: rest => if k' = k then some v else lookupKey k rest

/-! ### Field-path splitting

`extract_json_field` splits the path with
`re.split(r'\.(?![^\[]*\])', field_path)`: a dot separates segments
unless, scanning right from the dot, a `]` occurs before any `[`. -/

/-- Does a `]` occur before any `[` in the character stream?  This is the
regex lookahead `[^\[]*\]` succeeding at the position after a dot. -/
def closeBracketFirst : List Char → Bool
  | [] => false
  | c :: rest => if c = ']' then true else if c = '[' then false else closeBracketFirst rest

/-- Split the path characters on each dot whose lookahead fails,
accumulating the current segment in reverse. -/
def splitPathAux : List Char → List Char → List (List Char)
  | [], acc => [acc.reverse]
  | c :: rest, acc =>
    if c = '.' then
      if closeBracketFirst rest then splitPathAux rest (c :: acc)
      else acc.reverse :: splitPathAux rest []
    else splitPathAux rest (c :: acc)

/-- `re.split(r'\.(?![^\[]*\])', field_path)`. -/
def splitPath (s : String) : List String :=
  (splitPathAux s.data []).map List.asString

/-! ### Python `int(...)` on strings (as used for index segments) -/

def digitVal (c : Char) : Nat := c.toNat - 48

/-- Digits after the first one: Python allows single underscores between
digits (`int("1_0") = 10`), but not leading, trailing, or doubled. -/
def pyIntDigitsAux : List Char → Nat → Option Nat
  | [], acc => some acc
  | '_' :: [], _ => none
  | '_' :: c :: rest, acc =>
    if c.isDigit then pyIntDigitsAux rest (10 * acc + digitVal c) else none
  | c :: rest, acc =>
    if c.isDigit then pyIntDigitsAux rest (10 * acc + digitVal c) else none

/-- A nonempty digit group (the part of `int()` after the optional sign). -/
def pyIntDigits : List Char → Option Nat
  | [] => none
  | c :: rest => if c.isDigit then pyIntDigitsAux rest (digitVal c) else none

/-- Optional sign followed by digits. -/
def pyIntCore : List Char → Option Int
  | '+' :: rest => (pyIntDigits rest).map Int.ofNat
  | '-' :: rest => (pyIntDigits rest).map (fun n => -(n : Int))
  | l => (pyIntDigits l).map Int.ofNat

/-- Python `int(s)` for a decimal string: surrounding whitespace stripped,
optional sign, digits; `none` models the `ValueError` on anything else. -/
def pyInt (s : String) : Option Int :=
  pyIntCore (((s.data.dropWhile Char.isWhitespace).reverse.dropWhile Char.isWhitespace).reverse)

/-- Python `s.strip('[]')`: remove every leading and trailing `[` or `]`. -/
def stripBrackets (s : String) : String :=
  let isBr : Char → Bool := fun c => c = '[' || c = ']'
  (((s.data.dropWhile isBr).reverse.dropWhile isBr).reverse).asString

/-! ### Python subscription on JSON data -/

/-- Python sequence indexing `xs[i]`: a negative index counts from the
end; out of range is `IndexError` (a failure). -/
def pySeqIndex {α : Type} (xs : List α) (i : Int) : Option α :=
  let j : Int := if i < 0 then i + xs.length else i
  if j < 0 then none else xs.get? j.toNat

/-- Python `current_data[i]` for an integer `i`: lists and strings are
indexable (string indexing yields a one-character string); an integer
subscript on a dict is a `KeyError` and on a scalar a `TypeError`, both
caught by `extract_json_field` (failure). -/
def pyIndexJson (v : Json) (i : Int) : Option Json :=
  match v with
  | Json.arr xs => pySeqIndex xs i
  | Json.str s => (pySeqIndex s.data i).map (fun c => Json.str (String.mk [c]))
  | _ => none

/-- Python `current_data[k]` for a string `k`: a dict key lookup; a missing
key is a `KeyError` and a string subscript on a non-dict a `TypeError`,
both caught by `extract_json_field` (failure). -/
def pyKeyJson (v : Json) (k : String) : Option Json :=
  match v with
  | Json.obj fields => lookupKey k fields
  | _ => none

/-! ### Walking one path segment (`extract_json_field`'s loop body) -/

/-- `re.match(r'([^\[]+)\[(\d+)\]', segment)`: a nonempty run of
non-`[` characters, a literal `[`, one or more digits, `]`; trailing
characters are ignored (`re.match` anchors only the start). -/
def parseKeyIndex (seg : List Char) : Option (String × Nat) :=
  let name := seg.takeWhile (fun c => c ≠ '[')
  let rest := seg.dropWhile (fun c => c ≠ '[')
  if name.isEmpty then none
  else
    match rest with
    | '[' :: afterBr =>
      let digits := afterBr.takeWhile Char.isDigit
      let rest2 := afterBr.dropWhile Char.isDigit
      if digits.isEmpty then none
      else
        match rest2 with
        | ']' :: _ => some (name.asString, digits.foldl (fun acc c => 10 * acc + digitVal c) 0)
        | _ => none
    | _ => none

/-- One iteration of `extract_json_field`'s segment loop.
Scenario 1: a segment that starts with `[` and ends with `]` is stripped of
brackets, parsed with `int(...)` and used as a sequence index.
Scenario 2: otherwise a segment containing both `[` and `]` must match
`<key>[<digits>]`: dict lookup then sequence index.
Scenario 3: otherwise the segment is a plain dict key.
`none` is any of the caught exceptions (failure). -/
def walkSegment (cur : Json) (seg : String) : Option Json :=
  if seg.data.head? = some '[' ∧ seg.data.getLast? = some ']' then
    match pyInt (stripBrackets seg) with
    | none => none
    | some i => pyIndexJson cur i
  else if seg.data.contains '[' ∧ seg.data.contains ']' then
    match parseKeyIndex seg.data with
    | none => none
    | some (name, idx) =>
      match pyKeyJson cur name with
      | none => none
      | some v => pyIndexJson v (idx : Int)
  else
    pyKeyJson cur seg

/-- Walk all segments from the root; the first failing segment aborts. -/
def walkPath (root : Json) : List String → Option Json
  | [] => some root
  | seg :: rest =>
    match walkSegment root seg with
    | none => none
    | some v => walkPath v rest

/-- Embeds `ClientBase.extract_json_field`.  The body is `none` when the
response was not parsable as JSON, in which case `ClientBase.json`
returns the caller's default and the method returns it before walking.
The returned `Bool` records which exit the code takes: `true` for the
success return of the walked value, `false` for every failure return of
`default` — the `found` flag of the specified contract
`extract(value, path, default) -> (result, found)`. -/
def extract_json_field (body : Option Json) (fieldPath : String) (default : Json) :
    Json × Bool :=
  match body with
  | none => (default, false)
  | some root =>
    match walkPath root (splitPath fieldPath) with
    | some v => (v, true)
    | none => (default, false)

/-! ### `ClientBase.extract_json_path` (JSONPath delegation) -/

/-- The match-list handling of `extract_json_path`:
`matches[0] if len(matches) == 1 else matches if matches else default`.
A Python list of JSON match values is a JSON array. -/
def extract_json_path_result (ms : List Json) (default : Json) : Json :=
  match ms with
  | [] => default
  | [m] => m
  | l => Json.arr l

/-- Embeds `ClientBase.extract_json_path`.  The third-party
`jsonpath_ng` evaluator is abstracted as `evalExpr`, the function the
parsed expression induces on the document; `none` models a `parse`/`find`
exception, caught and converted to the default. An unparsable body
returns the default before evaluation. -/
def extract_json_path (body : Option Json) (evalExpr : Json → Option (List Json))
    (default : Json) : Json :=
  match body with
  | none => default
  | some root =>
    match evalExpr root with
    | none => default
    | some ms => extract_json_path_result ms default

/-! ### `ClientBase.extract_json_filtered` (field projector) -/

/-- Python dict assignment `result[alias] = v` on an association list:
overwriting keeps the key's original position, a new key is appended. -/
def dictInsert (m : List (String × Json)) (k : String) (v : Json) : List (String × Json) :=
  if m.any (fun p => p.1 = k) then m.map (fun p => if p.1 = k then (k, v) else p)
  else m ++ [(k, v)]

/-- The body of `extract_json_filtered`'s per-pair loop: extract with
default `None`, test `field_value is not None`; on failure use
`default_mapping[alias]` when present, otherwise skip. -/
def filteredStep (body : Option Json) (defaultMapping : List (String × Json))
    (acc : List (String × Json)) (pair : String × String) : List (String × Json) :=
  let fieldValue := (extract_json_field body pair.1 Json.null).1
  if jsonBeq fieldValue Json.null then
    match lookupKey pair.2 defaultMapping with
    | some d => dictInsert acc pair.2 d
    | none => acc
  else dictInsert acc pair.2 fieldValue

/-- Embeds `ClientBase.extract_json_filtered`.  `keepMapping` is the
path → alias dict in insertion order; `defaultMapping` is
`default or {}` (the caller's `None` becomes `[]`).  When the body is
unparsable, `ClientBase.json` returns `default` — a dict — so the
`isinstance(json_data, (dict, list))` guard passes and the per-field
loop runs (each extraction then fails on the unparsable body); when the
body parses to a scalar the guard fails and `default` is returned.
An empty final result yields `default` (`return result or default`). -/
def extract_json_filtered (body : Option Json) (keepMapping : List (String × String))
    (defaultMapping : List (String × Json)) : List (String × Json) :=
  let guardOk : Bool :=
    match body with
    | none => true
    | some (Json.obj _) => true
    | some (Json.arr _) => true
    | some _ => false
  if guardOk then
    let result := keepMapping.foldl (filteredStep body defaultMapping) []
    if result.isEmpty then defaultMapping else result
  else defaultMapping

/-! ### `ResponseAssertor.assert_json_contains`'s recursive subset check -/

/-- Python `isinstance(x, dict)` on a JSON value. -/
def isDict : Json → Bool
  | Json.obj _ => true
  | _ => false

mutual
/-- Embeds `_dict_contains(actual, expected)` from
`assert_json_contains`: every key of the expected dict must exist in the
actual dict; when both values are dicts the check recurses, otherwise
the values are compared with `==`. -/
def dictContains : List (String × Json) → List (String × Json) → Bool
  | _, [] => true
  | actual, (k, v) :: rest => pairContains actual k v && dictContains actual rest

/-- The per-key body of `_dict_contains`'s loop: `k in actual`, recurse
when both values are dicts, otherwise `actual[k] == v`. -/
def pairContains (actual : List (String × Json)) (k : String) (v : Json) : Bool :=
  match lookupKey k actual, v with
  | none, _ => false
  | some (Json.obj a'), Json.obj e' => dictContains a' e'
  | some av, _ => jsonBeq av v
end

/-! ### The response and assertor data model

A `Response` carries what the assertion operations read from the
external HTTP collaborator's response object.  `text` and `body` are the
raw-text and deserialized-JSON views of the same payload;
`queryParams` is the final URL's parsed query string (the
`urlparse`/`parse_qs`/`unquote` pipeline of
`extract_response_query_params`, abstracted to its result);
`elapsedSeconds` is `response.elapsed.total_seconds()` as a rational. -/
structure Response where
  statusCode : Int
  body : Option Json
  text : String
  headers : List (String × String)
  cookies : List (String × String)
  historyUrls : List String
  url : String
  queryParams : List (String × List String)
  elapsedSeconds : ℚ
  requestId : Option String

/-- `ResponseAssertor.__init__`'s per-instance state: the bound response
and the correlation id (`request_id or getattr(response, "request_id",
"unknown")`). -/
structure Assertor where
  response : Response
  requestId : String

/-- `ResponseAssertor(response, request_id)` without the class-level
registry side effect (see `initialize_assertion_map`). -/
def mkAssertorInstance (response : Response) (requestId : Option String) : Assertor :=
  ⟨response, requestId.getD (response.requestId.getD "unknown")⟩

/-- The structured content of `_format_assert_msg`: correlation id,
assertion type label, expected value, actual value, optional annotation.
The Python code renders these into one string; the embedding keeps them
as fields. -/
structure AssertMsg where
  requestId : String
  assertType : String
  expected : Json
  actual : Json
  note : String
deriving Repr

/-- An exception escaping an assertion operation: a failed `assert`
(carrying the formatted message) or a `TypeError` from keyword-argument
binding / an unsupported comparison. -/
inductive PyErr where
  | assertionFailed (m : AssertMsg)
  | typeErr (detail : String)
deriving Repr

/-! ### Response accessors (`ClientBase`, and `requests.Response` flags) -/

/-- Case-insensitive header lookup (`response.headers.get(name)` on the
`CaseInsensitiveDict`). -/
def headerGet (r : Response) (name : String) : Option String :=
  (r.headers.find? (fun p => p.1.toLower = name.toLower)).map Prod.snd

/-- `requests.Response.ok`: no client or server error. -/
def responseOk (r : Response) : Bool := r.statusCode < 400

/-- `requests.Response.is_redirect`: a `Location` header and a 3xx
redirect status. -/
def responseIsRedirect (r : Response) : Bool :=
  (headerGet r "location").isSome &&
    (r.statusCode = 301 || r.statusCode = 302 || r.statusCode = 303 ||
     r.statusCode = 307 || r.statusCode = 308)

/-- `requests.Response.is_permanent_redirect`: a `Location` header and a
301/308 status. -/
def responseIsPermanentRedirect (r : Response) : Bool :=
  (headerGet r "location").isSome && (r.statusCode = 301 || r.statusCode = 308)

/-- `response.cookies.get(name)` (exact-name lookup). -/
def cookieGet (r : Response) (name : String) : Option String :=
  (r.cookies.find? (fun p => p.1 = name)).map Prod.snd

/-- `ClientBase.extract_redirect_chain`: every history URL plus the
final URL. -/
def redirectChain (r : Response) : List String := r.historyUrls ++ [r.url]

/-- `ClientBase.content_length`: the `Content-Length` header parsed with
`int(...)`; a missing or falsy header, or an unparsable value, is `None`. -/
def contentLength (r : Response) : Option Int :=
  match headerGet r "Content-Length" with
  | none => none
  | some s => if s.isEmpty then none else pyInt s

/-- `ClientBase.extract_query_param_by_name`: the single decoded value
for a single-valued parameter, the full list for a multi-valued one,
the default when absent. -/
def extract_query_param_by_name (r : Response) (name : String) (default : Json) : Json :=
  match r.queryParams.find? (fun p => p.1 = name) with
  | none => default
  | some (_, [v]) => Json.str v
  | some (_, vs) => Json.arr (vs.map Json.str)

/-- Substring test: Python `needle in hay` on strings. -/
def strContainsSub (hay needle : String) : Bool :=
  go hay.data
where
  go : List Char → Bool
    | [] => needle.data.isEmpty
    | c :: rest => needle.data.isPrefixOf (c :: rest) || go rest

/-! ### The assertion operations (`ResponseAssertor.assert_*`)

Each operation reads the bound response through the accessors above,
compares with the expected value, and either returns (chaining: the
Python methods return `self`) or raises an `AssertionError` built by
`_format_assert_msg`.  Expected values arrive from configuration
records, so they stay `Json` and are compared with `jsonBeq`
(Python `==`). -/

def assert_status_code (self : Assertor) (expectedCode : Json) (msg : String) :
    Except PyErr Unit :=
  let actual := self.response.statusCode
  if jsonBeq (Json.num actual) expectedCode then .ok ()
  else .error (.assertionFailed
    ⟨self.requestId, "响应状态码", expectedCode, Json.num actual, msg⟩)

def assert_is_ok (self : Assertor) (msg : String) : Except PyErr Unit :=
  if responseOk self.response then .ok ()
  else .error (.assertionFailed
    ⟨self.requestId, "请求是否成功", Json.bool true, Json.bool false,
     msg ++ "（实际状态码：" ++ toString self.response.statusCode ++ "）"⟩)

def assert_is_redirect (self : Assertor) (msg : String) : Except PyErr Unit :=
  if responseIsRedirect self.response then .ok ()
  else .error (.assertionFailed
    ⟨self.requestId, "是否为重定向响应", Json.bool true, Json.bool false,
     msg ++ "（实际状态码：" ++ toString self.response.statusCode ++ "）"⟩)

def assert_is_permanent_redirect (self : Assertor) (msg : String) : Except PyErr Unit :=
  if responseIsPermanentRedirect self.response then .ok ()
  else .error (.assertionFailed
    ⟨self.requestId, "是否为永久重定向", Json.bool true, Json.bool false,
     msg ++ "（实际状态码：" ++ toString self.response.statusCode ++ "）"⟩)

def assert_json_field (self : Assertor) (fieldPath : String) (expectedValue : Json)
    (default : Json) (msg : String) : Except PyErr Unit :=
  let actual := (extract_json_field self.response.body fieldPath default).1
  if jsonBeq actual expectedValue then .ok ()
  else .error (.assertionFailed
    ⟨self.requestId, "JSON字段[" ++ fieldPath ++ "]", expectedValue, actual, msg⟩)

def assert_json_path (evalOf : String → Json → Option (List Json)) (self : Assertor)
    (jsonpathExpr : String) (expectedValue : Json) (default : Json) (msg : String) :
    Except PyErr Unit :=
  let actual := extract_json_path self.response.body (evalOf jsonpathExpr) default
  if jsonBeq actual expectedValue then .ok ()
  else .error (.assertionFailed
    ⟨self.requestId, "JSONPath表达式[" ++ jsonpathExpr ++ "]", expectedValue, actual, msg⟩)

/-- `assert_json_contains`: parse the body with default `{}`, require a
dict, then require `_dict_contains`.  Both failure messages carry the
expected dict; the containment failure carries the actual dict too. -/
def assert_json_contains (self : Assertor) (expectedDict : List (String × Json))
    (msg : String) : Except PyErr Unit :=
  let actualJson := self.response.body.getD (Json.obj [])
  match actualJson with
  | Json.obj actualFields =>
    if dictContains actualFields expectedDict then .ok ()
    else .error (.assertionFailed
      ⟨self.requestId, "JSON包含指定字典", Json.obj expectedDict, Json.obj actualFields, msg⟩)
  | other => .error (.assertionFailed
      ⟨self.requestId, "JSON包含指定字典", Json.obj expectedDict,
       Json.str ("响应非JSON字典类型（实际类型：" ++ pyTypeName other ++ "）"), msg⟩)
where
  /-- Python `type(x).__name__` on a JSON value. -/
  pyTypeName : Json → String
    | Json.null => "NoneType"
    | Json.bool _ => "bool"
    | Json.num _ => "int"
    | Json.str _ => "str"
    | Json.arr _ => "list"
    | Json.obj _ => "dict"

def assert_response_header (self : Assertor) (headerName : String) (expectedValue : Json)
    (default : Json) (msg : String) : Except PyErr Unit :=
  let actual := match headerGet self.response headerName with
    | some s => Json.str s
    | none => default
  if jsonBeq actual expectedValue then .ok ()
  else .error (.assertionFailed
    ⟨self.requestId, "响应头[" ++ headerName ++ "]", expectedValue, actual, msg⟩)

def assert_cookie (self : Assertor) (cookieName : String) (expectedValue : Json)
    (default : Json) (msg : String) : Except PyErr Unit :=
  let actual := match cookieGet self.response cookieName with
    | some s => Json.str s
    | none => default
  if jsonBeq actual expectedValue then .ok ()
  else .error (.assertionFailed
    ⟨self.requestId, "Cookie[" ++ cookieName ++ "]", expectedValue, actual, msg⟩)

def assert_redirect_count (self : Assertor) (expectedCount : Json) (msg : String) :
    Except PyErr Unit :=
  let actual : Int := self.response.historyUrls.length
  if jsonBeq (Json.num actual) expectedCount then .ok ()
  else .error (.assertionFailed
    ⟨self.requestId, "重定向次数", expectedCount, Json.num actual, msg⟩)

def assert_redirect_chain (self : Assertor) (expectedChain : Json) (msg : String) :
    Except PyErr Unit :=
  let actual := Json.arr ((redirectChain self.response).map Json.str)
  if jsonBeq actual expectedChain then .ok ()
  else .error (.assertionFailed
    ⟨self.requestId, "重定向链路", expectedChain, actual, msg⟩)

def assert_content_contains (self : Assertor) (expectedStr : String) (msg : String) :
    Except PyErr Unit :=
  let actualText := self.response.text
  if strContainsSub actualText expectedStr then .ok ()
  else .error (.assertionFailed
    ⟨self.requestId, "响应文本包含字符串", Json.str expectedStr,
     Json.str ("响应文本未包含该字符串（前500字符：" ++ actualText.take 500 ++ "）"), msg⟩)

def assert_content_length (self : Assertor) (expectedLength : Json) (msg : String) :
    Except PyErr Unit :=
  let actual := match contentLength self.response with
    | some n => Json.num n
    | none => Json.null
  if jsonBeq actual expectedLength then .ok ()
  else .error (.assertionFailed
    ⟨self.requestId, "响应内容长度", expectedLength, actual, msg⟩)

def assert_response_url (self : Assertor) (expectedUrl : Json) (msg : String) :
    Except PyErr Unit :=
  let actual := Json.str self.response.url
  if jsonBeq actual expectedUrl then .ok ()
  else .error (.assertionFailed
    ⟨self.requestId, "响应最终URL", expectedUrl, actual, msg⟩)

def assert_query_param (self : Assertor) (paramName : String) (expectedValue : Json)
    (default : Json) (msg : String) : Except PyErr Unit :=
  let actual := extract_query_param_by_name self.response paramName default
  if jsonBeq actual expectedValue then .ok ()
  else .error (.assertionFailed
    ⟨self.requestId, "URL查询参数[" ++ paramName ++ "]", expectedValue, actual, msg⟩)

/-- `assert_elapsed_less_than`: `actual_seconds <= max_seconds` (a
non-numeric bound would raise a `TypeError` out of the comparison). -/
def assert_elapsed_less_than (self : Assertor) (maxSeconds : Json) (msg : String) :
    Except PyErr Unit :=
  match maxSeconds with
  | Json.num m =>
    if self.response.elapsedSeconds ≤ (m : ℚ) then .ok ()
    else .error (.assertionFailed
      ⟨self.requestId, "响应耗时（小于指定值）", maxSeconds,
       Json.str (toString self.response.elapsedSeconds ++ "秒"), msg⟩)
  | _ => .error (.typeErr "unsupported operand types for <=")

/-! ### Declarative assertion records and keyword binding

An `AssertionRecord` is a dict: a `type` key plus the keyword arguments
of the chosen operation.  `**assert_item` binding fails with a
`TypeError` — before the operation body runs — when a keyword does not
name a parameter or a required parameter is missing. -/

abbrev Record := List (String × Json)

/-- Keyword binding: every supplied keyword must name a parameter. -/
def checkKeys (args : Record) (allowed : List String) : Except PyErr Unit :=
  if (args.map Prod.fst).all allowed.contains then .ok ()
  else .error (.typeErr "got an unexpected keyword argument")

/-- A parameter with no default must be supplied. -/
def requiredArg (args : Record) (name : String) : Except PyErr Json :=
  match lookupKey name args with
  | some v => .ok v
  | none => .error (.typeErr ("missing a required argument: " ++ name))

/-- A parameter with a default. -/
def optionalArg (args : Record) (name : String) (dflt : Json) : Json :=
  (lookupKey name args).getD dflt

/-- The optional `msg` annotation (a string when supplied). -/
def msgArg (args : Record) : String :=
  match lookupKey "msg" args with
  | some (Json.str s) => s
  | _ => ""

/-- A value the operation immediately uses as a string; anything else
raises a `TypeError` out of the operation. -/
def strField (v : Json) : Except PyErr String :=
  match v with
  | Json.str s => .ok s
  | _ => .error (.typeErr "expected a string argument")

/-- A value the operation iterates as a dict (`expected_dict.items()`);
anything else raises out of the operation. -/
def dictField (v : Json) : Except PyErr (List (String × Json)) :=
  match v with
  | Json.obj fields => .ok fields
  | _ => .error (.typeErr "expected a dict argument")

/-- The registered assertion names, in `_ASSERTION_MAP` insertion order. -/
def supportedAssertionTypes : List String :=
  ["status_code", "is_ok", "is_redirect", "is_permanent_redirect",
   "json_field", "json_path", "json_contains",
   "response_header", "cookie",
   "redirect_count", "redirect_chain",
   "content_contains", "content_length",
   "response_url", "query_param",
   "elapsed_less_than"]

/-- `self._ASSERTION_MAP[assert_type](**assert_item)` for a registered
name: bind the record's remaining keys as keyword arguments and run the
operation — on the instance the registry's bound methods capture
(`boundTo`), which need not be the instance whose `assert_from_config`
is running.  `evalOf` is the abstracted third-party JSONPath evaluator,
used only by `json_path`.  The `encoding` keyword only picks the byte
decoding and is absorbed by the body views of `Response`. -/
def dispatchAssertion (evalOf : String → Json → Option (List Json)) (boundTo : Assertor)
    (ty : String) (args : Record) : Except PyErr Unit :=
  match ty with
  | "status_code" => do
    checkKeys args ["expected_code", "msg"]
    let e ← requiredArg args "expected_code"
    assert_status_code boundTo e (msgArg args)
  | "is_ok" => do
    checkKeys args ["msg"]
    assert_is_ok boundTo (msgArg args)
  | "is_redirect" => do
    checkKeys args ["msg"]
    assert_is_redirect boundTo (msgArg args)
  | "is_permanent_redirect" => do
    checkKeys args ["msg"]
    assert_is_permanent_redirect boundTo (msgArg args)
  | "json_field" => do
    checkKeys args ["field_path", "expected_value", "default", "encoding", "msg"]
    let p ← requiredArg args "field_path" >>= strField
    let e ← requiredArg args "expected_value"
    assert_json_field boundTo p e (optionalArg args "default" Json.null) (msgArg args)
  | "json_path" => do
    checkKeys args ["jsonpath_expr", "expected_value", "default", "encoding", "msg"]
    let p ← requiredArg args "jsonpath_expr" >>= strField
    let e ← requiredArg args "expected_value"
    assert_json_path evalOf boundTo p e (optionalArg args "default" Json.null) (msgArg args)
  | "json_contains" => do
    checkKeys args ["expected_dict", "encoding", "msg"]
    let d ← requiredArg args "expected_dict" >>= dictField
    assert_json_contains boundTo d (msgArg args)
  | "response_header" => do
    checkKeys args ["header_name", "expected_value", "default", "msg"]
    let n ← requiredArg args "header_name" >>= strField
    let e ← requiredArg args "expected_value"
    assert_response_header boundTo n e (optionalArg args "default" Json.null) (msgArg args)
  | "cookie" => do
    checkKeys args ["cookie_name", "expected_value", "default", "msg"]
    let n ← requiredArg args "cookie_name" >>= strField
    let e ← requiredArg args "expected_value"
    assert_cookie boundTo n e (optionalArg args "default" Json.null) (msgArg args)
  | "redirect_count" => do
    checkKeys args ["expected_count", "msg"]
    let e ← requiredArg args "expected_count"
    assert_redirect_count boundTo e (msgArg args)
  | "redirect_chain" => do
    checkKeys args ["expected_chain", "msg"]
    let e ← requiredArg args "expected_chain"
    assert_redirect_chain boundTo e (msgArg args)
  | "content_contains" => do
    checkKeys args ["expected_str", "encoding", "msg"]
    let e ← requiredArg args "expected_str" >>= strField
    assert_content_contains boundTo e (msgArg args)
  | "content_length" => do
    checkKeys args ["expected_length", "msg"]
    let e ← requiredArg args "expected_length"
    assert_content_length boundTo e (msgArg args)
  | "response_url" => do
    checkKeys args ["expected_url", "msg"]
    let e ← requiredArg args "expected_url"
    assert_response_url boundTo e (msgArg args)
  | "query_param" => do
    checkKeys args ["param_name", "expected_value", "default", "msg"]
    let n ← requiredArg args "param_name" >>= strField
    let e ← requiredArg args "expected_value"
    assert_query_param boundTo n e (optionalArg args "default" Json.null) (msgArg args)
  | "elapsed_less_than" => do
    checkKeys args ["max_seconds", "msg"]
    let e ← requiredArg args "max_seconds"
    assert_elapsed_less_than boundTo e (msgArg args)
  | _ => .error (.typeErr "unregistered assertion type")

/-! ### The lazily built class-level dispatch registry

`ResponseAssertor._ASSERTION_MAP` is a class attribute.
`_initialize_assertion_map`, called from every `__init__`, populates it
only if it is still empty — with entries `self.assert_...`, bound
methods capturing the instance that happened to build it.  The registry
is therefore modelled by `Option Assertor`: the instance whose bound
methods it holds, `none` while the dict is still empty.  After the
first build it is never mutated again. -/

def initialize_assertion_map (registry : Option Assertor) (self : Assertor) :
    Option Assertor :=
  match registry with
  | none => some self
  | some a => some a

/-- `ResponseAssertor(response, request_id)`: the new instance plus the
class registry after `__init__` ran `_initialize_assertion_map`. -/
def mkResponseAssertor (registry : Option Assertor) (response : Response)
    (requestId : Option String) : Assertor × Option Assertor :=
  let a := mkAssertorInstance response requestId
  (a, initialize_assertion_map registry a)

/-! ### `ResponseAssertor.assert_from_config` -/

/-- A configuration error raised by `assert_from_config` itself, kept
structurally: the record's index and (for an unknown type) the
supported-name list that the `ValueError` message renders. -/
inductive ConfigErr where
  | missingType (idx : Nat) (item : Record)
  | unsupportedType (idx : Nat) (ty : Json) (supported : List String) (item : Record)
  | runtimeWrapped (idx : Nat) (ty : String) (item : Record) (cause : PyErr)
deriving Repr

/-- `assert_item.pop("type")`: the value and the dict without that entry
(entry order otherwise preserved); `none` when the key is absent. -/
def popKey (k : String) : Record → Option (Json × Record)
  | [] => none
  | (k', v) :: rest =>
    if k' = k then some (v, rest)
    else
      match popKey k rest with
      | none => none
      | some (v', rest') => some (v', (k', v) :: rest')

/-- What processing one record does: its outcome, the invoked operation
(when dispatch was reached), and the record as the caller now sees it
(`type` popped in place as soon as the key exists). -/
structure StepResult where
  outcome : Except ConfigErr Unit
  invoked : Option String
  record : Record
deriving Repr

/-- One iteration of the `assert_from_config` loop over record `idx`:
require a `type` key (popping it from the caller's dict), require a
registered name, invoke the bound operation, and wrap any exception it
raises in a `RuntimeError` naming the index and type, chained to the
original error. -/
def processRecord (evalOf : String → Json → Option (List Json)) (boundTo : Assertor)
    (idx : Nat) (item : Record) : StepResult :=
  match popKey "type" item with
  | none => ⟨.error (.missingType idx item), none, item⟩
  | some (tyVal, item') =>
    match tyVal with
    | Json.str ty =>
      if supportedAssertionTypes.contains ty then
        match dispatchAssertion evalOf boundTo ty item' with
        | .ok () => ⟨.ok (), some ty, item'⟩
        | .error e => ⟨.error (.runtimeWrapped idx ty item' e), some ty, item'⟩
      else ⟨.error (.unsupportedType idx (Json.str ty) supportedAssertionTypes item'), none, item'⟩
    | other => ⟨.error (.unsupportedType idx other supportedAssertionTypes item'), none, item'⟩

/-- The observable result of a batch run: the outcome, the `(index,
type)` trace of operations that actually executed, and the caller's
record list after the run's in-place mutations. -/
structure RunResult where
  outcome : Except ConfigErr Unit
  executed : List (Nat × String)
  records : List Record
deriving Repr

/-- The executed-trace contribution of one step. -/
def execEntry (idx : Nat) (invoked : Option String) : List (Nat × String) :=
  match invoked with
  | some ty => [(idx, ty)]
  | none => []

/-- The `assert_from_config` loop from record `idx` on: strictly in list
order, stopping at the first record whose processing raises; records
after it are left untouched and never evaluated. -/
def assert_from_config_aux (evalOf : String → Json → Option (List Json))
    (boundTo : Assertor) (idx : Nat) : List Record → RunResult
  | [] => ⟨.ok (), [], []⟩
  | item :: rest =>
    match (processRecord evalOf boundTo idx item).outcome with
    | .ok _ =>
      ⟨(assert_from_config_aux evalOf boundTo (idx + 1) rest).outcome,
       execEntry idx (processRecord evalOf boundTo idx item).invoked
         ++ (assert_from_config_aux evalOf boundTo (idx + 1) rest).executed,
       (processRecord evalOf boundTo idx item).record
         :: (assert_from_config_aux evalOf boundTo (idx + 1) rest).records⟩
    | .error e =>
      ⟨.error e, execEntry idx (processRecord evalOf boundTo idx item).invoked,
       (processRecord evalOf boundTo idx item).record :: rest⟩

/-- Embeds `ResponseAssertor.assert_from_config`, run on `self` with the
class registry in state `registry`.  Dispatch goes through the
registry's bound methods: every operation reads the response of the
instance that built the registry, not necessarily `self`'s.  (The
registry is never empty when an instance exists — `__init__` builds it —
so `registry.getD self` only totalises the model.) -/
def assert_from_config (evalOf : String → Json → Option (List Json))
    (registry : Option Assertor) (self : Assertor) (config : List Record) : RunResult :=
  assert_from_config_aux evalOf (registry.getD self) 0 config

/-! ### Concrete sample data for the verified behaviours -/

/-- A JSONPath evaluator stand-in for runs that never reach `json_path`. -/
def noJsonPath : String → Json → Option (List Json) := fun _ _ => none

/-- A response with only a status, a body and a correlation id. -/
def mkResponse (code : Int) (body : Option Json) (requestId : String) : Response :=
  ⟨code, body, "", [], [], [], "", [], 0, some requestId⟩

/-- The spec's nested example document
`{"a": {"b": [{"c": 1}, {"c": 2}]}}`. -/
def sampleNested : Json :=
  Json.obj [("a", Json.obj [("b",
    Json.arr [Json.obj [("c", Json.num 1)], Json.obj [("c", Json.num 2)]])])]

/-- The spec's top-level array example `[10, 20, 30]`. -/
def sampleList : Json := Json.arr [Json.num 10, Json.num 20, Json.num 30]

/-- The first-constructed assertor of the shared-registry scenario:
bound to a 200 response with body `{"v": 1}`; it finds the class
registry empty and populates it with its own bound methods. -/
def c1First : Assertor × Option Assertor :=
  mkResponseAssertor none (mkResponse 200 (some (Json.obj [("v", Json.num 1)])) "req-a") none

/-- The second-constructed assertor: bound to a 404 response with body
`{"v": 2}`; the registry is already populated, so it keeps the first
instance's bound methods. -/
def c1Second : Assertor × Option Assertor :=
  mkResponseAssertor c1First.2 (mkResponse 404 (some (Json.obj [("v", Json.num 2)])) "req-b") none

/-- A declarative record list that holds on the first response and fails
on the second: status 200 and `v == 1`. -/
def c1Config : List Record :=
  [[("type", Json.str "status_code"), ("expected_code", Json.num 200)],
   [("type", Json.str "json_field"), ("field_path", Json.str "v"), ("expected_value", Json.num 1)]]

/-- A single assertor (registry built by itself) on a 200 response. -/
def soloAssertor : Assertor × Option Assertor :=
  mkResponseAssertor none (mkResponse 200 none "req-c4") none

/-- The spec's dispatch example: a passing `status_code` record followed
by a record of unknown type. -/
def c4Config : List Record :=
  [[("type", Json.str "status_code"), ("expected_code", Json.num 200)],
   [("type", Json.str "unknown_kind")]]

/-- A one-record list whose assertion holds on `soloAssertor`'s
response: the replay scenario's input. -/
def c8Config : List Record :=
  [[("type", Json.str "status_code"), ("expected_code", Json.num 200)]]

/-- The JSON-contains example's actual document
`{"headers": {"User-Agent": "x"}, "args": {}}`. -/
def c7Actual : List (String × Json) :=
  [("headers", Json.obj [("User-Agent", Json.str "x")]), ("args", Json.obj [])]

/-- An assertor bound to a response whose body is `c7Actual`. -/
def c7Assertor : Assertor :=
  mkAssertorInstance (mkResponse 200 (some (Json.obj c7Actual)) "req-c7") none

/-! ## Helper lemmas -/

/-- A current value that no integer subscript and no string subscript
reaches (a scalar) fails every segment shape. -/
theorem walkSegment_no_subscript (cur : Json)
    (hidx : ∀ i, pyIndexJson cur i = none) (hkey : ∀ k, pyKeyJson cur k = none)
    (seg : String) : walkSegment cur seg = none := by
  by_cases h1 : seg.data.head? = some '[' ∧ seg.data.getLast? = some ']'
  · rw [walkSegment, if_pos h1]
    cases pyInt (stripBrackets seg) with
    | none => rfl
    | some i => exact hidx i
  · by_cases h2 : seg.data.contains '[' = true ∧ seg.data.contains ']' = true
    · rw [walkSegment, if_neg h1, if_pos h2]
      cases parseKeyIndex seg.data with
      | none => rfl
      | some p =>
        obtain ⟨name, idx⟩ := p
        simp [hkey]
    · rw [walkSegment, if_neg h1, if_neg h2]
      exact hkey seg

/-! ## The claims -/

/-- C2: the path extractor satisfies the contract
`extract(value, path, default) -> (result, found)` — whenever the walk
reaches an addressed value it is returned with `found = true` — and in
particular `extract({"a":{"b":[{"c":1},{"c":2}]}}, "a.b[1].c", None) =
(2, true)` and `extract([10,20,30], "[2]", None) = (30, true)`. -/
theorem c2_extract_found_contract :
    (∀ (root : Json) (path : String) (default v : Json),
      walkPath root (splitPath path) = some v →
      extract_json_field (some root) path default = (v, true))
  ∧ extract_json_field (some sampleNested) "a.b[1].c" Json.null = (Json.num 2, true)
  ∧ extract_json_field (some sampleList) "[2]" Json.null = (Json.num 30, true) := by
  refine ⟨?_, rfl, rfl⟩
  intro root path default v h
  simp [extract_json_field, h]

/-- Witness for C2 at the path `"[2]"` on `[10, 20, 30]`. -/
theorem c2_extract_found_contract_witness :
    walkPath sampleList (splitPath "[2]") = some (Json.num 30)
  ∧ extract_json_field (some sampleList) "[2]" Json.null = (Json.num 30, true) :=
  ⟨rfl, c2_extract_found_contract.1 sampleList "[2]" Json.null (Json.num 30) rfl⟩

/-- C3: extraction over a non-existent location is total failure-safe:
an unparsable body short-circuits to `(default, false)` before walking;
a failed walk yields `(default, false)`; `found = false` always carries
the default; a non-integer pure-bracket index segment fails; a missing
key fails; an out-of-range index fails; and a scalar current value
(null, boolean, number) fails every segment. -/
theorem c3_extract_failure_safety :
    (∀ (path : String) (default : Json),
      extract_json_field none path default = (default, false))
  ∧ (∀ (root : Json) (path : String) (default : Json),
      walkPath root (splitPath path) = none →
      extract_json_field (some root) path default = (default, false))
  ∧ (∀ (body : Option Json) (path : String) (default : Json),
      (extract_json_field body path default).2 = false →
      (extract_json_field body path default).1 = default)
  ∧ (∀ (cur : Json) (seg : String),
      seg.data.head? = some '[' → seg.data.getLast? = some ']' →
      pyInt (stripBrackets seg) = none → walkSegment cur seg = none)
  ∧ (∀ (fields : List (String × Json)) (k : String),
      lookupKey k fields = none → pyKeyJson (Json.obj fields) k = none)
  ∧ (∀ (xs : List Json) (i : Int), (xs.length : Int) ≤ i → pySeqIndex xs i = none)
  ∧ (∀ seg, walkSegment Json.null seg = none)
  ∧ (∀ (b : Bool) (seg : String), walkSegment (Json.bool b) seg = none)
  ∧ (∀ (n : Int) (seg : String), walkSegment (Json.num n) seg = none) := by
  refine ⟨fun _ _ => rfl, ?_, ?_, ?_, ?_, ?_, ?_, ?_, ?_⟩
  · intro root path default h
    simp [extract_json_field, h]
  · intro body path default h
    cases body with
    | none => rfl
    | some root =>
      simp only [extract_json_field] at *
      cases h' : walkPath root (splitPath path) with
      | none => simp [h']
      | some v => simp [h'] at h
  · intro cur seg h1 h2 h3
    rw [walkSegment, if_pos ⟨h1, h2⟩, h3]
  · intro fields k h
    simpa [pyKeyJson] using h
  · intro xs i h
    have hn : ¬ i < 0 := by omega
    simp only [pySeqIndex, if_neg hn]
    exact List.get?_eq_none.mpr (by omega)
  · exact walkSegment_no_subscript Json.null (fun _ => rfl) (fun _ => rfl)
  · exact fun b => walkSegment_no_subscript (Json.bool b) (fun _ => rfl) (fun _ => rfl)
  · exact fun n => walkSegment_no_subscript (Json.num n) (fun _ => rfl) (fun _ => rfl)

/-- Witness for C3: the missing-key example
`extract({"x":1}, "y.z", "MISSING") = ("MISSING", false)`, discharging
the walk-failure and found-false hypotheses there, plus concrete
instances of the segment-level failure modes. -/
theorem c3_extract_failure_safety_witness :
    extract_json_field (some (Json.obj [("x", Json.num 1)])) "y.z" (Json.str "MISSING")
      = (Json.str "MISSING", false)
  ∧ (extract_json_field (some (Json.obj [("x", Json.num 1)])) "y.z" (Json.str "MISSING")).1
      = Json.str "MISSING"
  ∧ walkSegment (Json.arr [Json.num 1]) "[x]" = none
  ∧ pyKeyJson (Json.obj [("x", Json.num 1)]) "y" = none
  ∧ pySeqIndex [Json.num 10, Json.num 20, Json.num 30] 3 = none := by
  refine ⟨?_, ?_, ?_, ?_, ?_⟩
  · exact c3_extract_failure_safety.2.1 _ "y.z" _ rfl
  · exact c3_extract_failure_safety.2.2.1 _ "y.z" _ rfl
  · exact c3_extract_failure_safety.2.2.2.1 _ "[x]" rfl rfl rfl
  · exact c3_extract_failure_safety.2.2.2.2.1 _ "y" rfl
  · exact c3_extract_failure_safety.2.2.2.2.2.1 _ 3 (by decide)

/-- C6: the JSONPath operation maps the delegated evaluator's match
list to the single value on exactly one match, the full list on several
matches, and the caller's default on zero matches; and the wrapper
applies exactly that rule to whatever list the evaluator produces. -/
theorem c6_jsonpath_match_list :
    (∀ (d : Json), extract_json_path_result [] d = d)
  ∧ (∀ (m d : Json), extract_json_path_result [m] d = m)
  ∧ (∀ (a b : Json) (l : List Json) (d : Json),
      extract_json_path_result (a :: b :: l) d = Json.arr (a :: b :: l))
  ∧ (∀ (root : Json) (evalExpr : Json → Option (List Json)) (d : Json) (ms : List Json),
      evalExpr root = some ms →
      extract_json_path (some root) evalExpr d = extract_json_path_result ms d) := by
  refine ⟨fun _ => rfl, fun _ _ => rfl, fun _ _ _ _ => rfl, ?_⟩
  intro root evalExpr d ms h
  simp [extract_json_path, h]

/-- Witness for C6: a two-match evaluator on a concrete document. -/
theorem c6_jsonpath_match_list_witness :
    extract_json_path (some (Json.num 0))
      (fun _ => some [Json.num 1, Json.num 2]) Json.null
      = Json.arr [Json.num 1, Json.num 2] :=
  (c6_jsonpath_match_list.2.2.2 (Json.num 0)
    (fun _ => some [Json.num 1, Json.num 2]) Json.null [Json.num 1, Json.num 2] rfl).trans rfl

/-- C10: the extractor accepts bare bracketed index segments beyond the
documented grammar: a pure-bracket segment is handled uniformly at any
walk position (so not only as the first segment), and a negative
integer in a pure-bracket segment indexes a sequence from its end. -/
theorem c10_bare_bracket_and_negative_index :
    (∀ (cur : Json) (seg : String) (i : Int),
      seg.data.head? = some '[' → seg.data.getLast? = some ']' →
      pyInt (stripBrackets seg) = some i → walkSegment cur seg = pyIndexJson cur i)
  ∧ (∀ (xs : List Json) (i : Int), i < 0 → 0 ≤ i + xs.length →
      pySeqIndex xs i = xs.get? (i + xs.length).toNat)
  ∧ splitPath "a.[1]" = ["a", "[1]"]
  ∧ extract_json_field
      (some (Json.obj [("a", Json.arr [Json.num 1, Json.num 2, Json.num 3])]))
      "a.[1]" Json.null = (Json.num 2, true)
  ∧ extract_json_field
      (some (Json.obj [("a", Json.arr [Json.num 1, Json.num 2, Json.num 3])]))
      "a.[-1]" Json.null = (Json.num 3, true) := by
  refine ⟨?_, ?_, rfl, rfl, rfl⟩
  · intro cur seg i h1 h2 h3
    rw [walkSegment, if_pos ⟨h1, h2⟩, h3]
  · intro xs i hneg hnn
    simp only [pySeqIndex, if_pos hneg, if_neg (by omega : ¬ i + (xs.length : Int) < 0)]

/-- Witness for C10: the pure-bracket segment `"[-1]"` applied mid-walk
to `[1, 2, 3]` selects the last element. -/
theorem c10_bare_bracket_and_negative_index_witness :
    walkSegment (Json.arr [Json.num 1, Json.num 2, Json.num 3]) "[-1]"
      = pyIndexJson (Json.arr [Json.num 1, Json.num 2, Json.num 3]) (-1)
  ∧ pySeqIndex [Json.num 1, Json.num 2, Json.num 3] (-1)
      = [Json.num 1, Json.num 2, Json.num 3].get? ((-1 : Int) + 3).toNat := by
  constructor
  · exact c10_bare_bracket_and_negative_index.1 _ "[-1]" (-1) rfl rfl rfl
  · exact c10_bare_bracket_and_negative_index.2.1 _ (-1) (by decide) (by decide)

/-- C5: the field projector stores `result[alias] = extracted` on
success; on failure it substitutes `default_mapping[alias]` when the
alias has a default and silently omits it otherwise; a scalar root
returns `default_mapping` unchanged; an empty final result returns
`default_mapping` itself; and the two `keep_mapping = {"a.b": "alias1"}`
examples hold. -/
theorem c5_field_projector :
    (∀ (body : Option Json) (dflt acc : List (String × Json)) (pair : String × String),
      jsonBeq (extract_json_field body pair.1 Json.null).1 Json.null = false →
      filteredStep body dflt acc pair
        = dictInsert acc pair.2 (extract_json_field body pair.1 Json.null).1)
  ∧ (∀ (body : Option Json) (dflt acc : List (String × Json)) (pair : String × String)
        (d : Json),
      jsonBeq (extract_json_field body pair.1 Json.null).1 Json.null = true →
      lookupKey pair.2 dflt = some d →
      filteredStep body dflt acc pair = dictInsert acc pair.2 d)
  ∧ (∀ (body : Option Json) (dflt acc : List (String × Json)) (pair : String × String),
      jsonBeq (extract_json_field body pair.1 Json.null).1 Json.null = true →
      lookupKey pair.2 dflt = none →
      filteredStep body dflt acc pair = acc)
  ∧ (∀ (keep : List (String × String)) (dflt : List (String × Json)),
      extract_json_filtered (some Json.null) keep dflt = dflt)
  ∧ (∀ (b : Bool) (keep : List (String × String)) (dflt : List (String × Json)),
      extract_json_filtered (some (Json.bool b)) keep dflt = dflt)
  ∧ (∀ (n : Int) (keep : List (String × String)) (dflt : List (String × Json)),
      extract_json_filtered (some (Json.num n)) keep dflt = dflt)
  ∧ (∀ (s : String) (keep : List (String × String)) (dflt : List (String × Json)),
      extract_json_filtered (some (Json.str s)) keep dflt = dflt)
  ∧ (∀ (body : Option Json) (keep : List (String × String)) (dflt : List (String × Json)),
      keep.foldl (filteredStep body dflt) [] = [] →
      extract_json_filtered body keep dflt = dflt)
  ∧ extract_json_filtered (some (Json.obj [("a", Json.obj [("b", Json.num 5)])]))
      [("a.b", "alias1")] [] = [("alias1", Json.num 5)]
  ∧ extract_json_filtered (some (Json.obj [("a", Json.obj [])]))
      [("a.b", "alias1")] [] = [] := by
  refine ⟨?_, ?_, ?_, fun _ _ => rfl, fun _ _ _ => rfl, fun _ _ _ => rfl,
    fun _ _ _ => rfl, ?_, rfl, rfl⟩
  · intro body dflt acc pair h
    simp [filteredStep, h]
  · intro body dflt acc pair d h h2
    simp [filteredStep, h, h2]
  · intro body dflt acc pair h h2
    simp [filteredStep, h, h2]
  · intro body keep dflt h
    cases body with
    | none => simp [extract_json_filtered, h]
    | some j => cases j <;> simp [extract_json_filtered, h]

/-- Witness for C5: the success, default-substitution, omission and
empty-result branches at concrete inputs. -/
theorem c5_field_projector_witness :
    filteredStep (some (Json.obj [("a", Json.obj [("b", Json.num 5)])])) [] [] ("a.b", "alias1")
      = dictInsert [] "alias1"
          (extract_json_field (some (Json.obj [("a", Json.obj [("b", Json.num 5)])]))
            "a.b" Json.null).1
  ∧ filteredStep (some (Json.obj [("a", Json.obj [])])) [("alias1", Json.num 9)] []
      ("a.b", "alias1") = dictInsert [] "alias1" (Json.num 9)
  ∧ filteredStep (some (Json.obj [("a", Json.obj [])])) [] [] ("a.b", "alias1") = []
  ∧ extract_json_filtered (some (Json.obj [("a", Json.obj [])])) [("a.b", "alias1")] [] = [] :=
  ⟨c5_field_projector.1 _ [] [] ("a.b", "alias1") rfl,
   c5_field_projector.2.1 _ [("alias1", Json.num 9)] [] ("a.b", "alias1") (Json.num 9) rfl rfl,
   c5_field_projector.2.2.1 _ [] [] ("a.b", "alias1") rfl rfl,
   c5_field_projector.2.2.2.2.2.2.2.1 _ [("a.b", "alias1")] [] rfl⟩

/-- C9: the projector cannot tell an existing field whose value is JSON
null from a missing field: when the walk reaches a null, the per-pair
step behaves exactly as on a body where the path is not found
(default-substituted or omitted), shown both against an unparsable body
and against a body missing the key. -/
theorem c9_null_field_like_missing :
    (∀ (root : Json) (dflt acc : List (String × Json)) (path al : String),
      walkPath root (splitPath path) = some Json.null →
      filteredStep (some root) dflt acc (path, al) = filteredStep none dflt acc (path, al))
  ∧ (∀ (root : Json) (dflt acc : List (String × Json)) (path al : String),
      walkPath root (splitPath path) = some Json.null →
      filteredStep (some root) dflt acc (path, al)
        = match lookupKey al dflt with
          | some d => dictInsert acc al d
          | none => acc)
  ∧ extract_json_filtered (some (Json.obj [("a", Json.null)])) [("a", "x")]
      [("x", Json.num 7)] = [("x", Json.num 7)]
  ∧ extract_json_filtered (some (Json.obj [("a", Json.null)])) [("a", "x")] [] = []
  ∧ extract_json_filtered (some (Json.obj [("a", Json.null)])) [("a", "x")]
      [("x", Json.num 7)]
      = extract_json_filtered (some (Json.obj [("b", Json.num 1)])) [("a", "x")]
          [("x", Json.num 7)] := by
  refine ⟨?_, ?_, rfl, rfl, rfl⟩
  · intro root dflt acc path al h
    simp [filteredStep, extract_json_field, h, jsonBeq]
  · intro root dflt acc path al h
    simp [filteredStep, extract_json_field, h, jsonBeq]

/-- Witness for C9 on `{"a": null}` with path `"a"`. -/
theorem c9_null_field_like_missing_witness :
    filteredStep (some (Json.obj [("a", Json.null)])) [("x", Json.num 7)] [] ("a", "x")
      = filteredStep none [("x", Json.num 7)] [] ("a", "x")
  ∧ filteredStep (some (Json.obj [("a", Json.null)])) [] [] ("a", "x")
      = match lookupKey "x" ([] : List (String × Json)) with
        | some d => dictInsert [] "x" d
        | none => [] :=
  ⟨c9_null_field_like_missing.1 _ [("x", Json.num 7)] [] "a" "x" rfl,
   c9_null_field_like_missing.2.1 _ [] [] "a" "x" rfl⟩

/-- C7: the JSON-contains assertion passes exactly when the recursive
subset check holds — every expected key exists in the actual dict, dicts
on both sides recurse, anything else compares by equality — the
example's assertion passes, and flipping the expected `User-Agent`
fails with a message carrying both the expected and the actual dict. -/
theorem c7_json_contains_subset :
    (∀ (actual expected : List (String × Json)),
      dictContains actual expected = true ↔
        ∀ kv ∈ expected, pairContains actual kv.1 kv.2 = true)
  ∧ (∀ (actual : List (String × Json)) (k : String) (v : Json),
      lookupKey k actual = none → pairContains actual k v = false)
  ∧ (∀ (actual : List (String × Json)) (k : String) (a' e' : List (String × Json)),
      lookupKey k actual = some (Json.obj a') →
      pairContains actual k (Json.obj e') = dictContains a' e')
  ∧ (∀ (actual : List (String × Json)) (k : String) (av v : Json),
      lookupKey k actual = some av → (isDict av && isDict v) = false →
      pairContains actual k v = jsonBeq av v)
  ∧ (∀ (a : Assertor) (expectedDict : List (String × Json)) (msg : String)
        (actualFields : List (String × Json)),
      a.response.body = some (Json.obj actualFields) →
      (assert_json_contains a expectedDict msg = .ok () ↔
        dictContains actualFields expectedDict = true))
  ∧ assert_json_contains c7Assertor
      [("headers", Json.obj [("User-Agent", Json.str "x")])] "" = .ok ()
  ∧ assert_json_contains c7Assertor
      [("headers", Json.obj [("User-Agent", Json.str "y")])] ""
      = .error (.assertionFailed ⟨"req-c7", "JSON包含指定字典",
          Json.obj [("headers", Json.obj [("User-Agent", Json.str "y")])],
          Json.obj c7Actual, ""⟩) := by
  refine ⟨?_, ?_, ?_, ?_, ?_, rfl, rfl⟩
  · intro actual expected
    induction expected with
    | nil => simp [dictContains]
    | cons kv rest ih =>
      obtain ⟨k, v⟩ := kv
      simp [dictContains, Bool.and_eq_true, ih]
  · intro actual k v h
    cases v <;> (unfold pairContains; rw [h])
  · intro actual k a' e' h
    unfold pairContains
    rw [h]
  · intro actual k av v h h2
    unfold pairContains
    rw [h]
    cases av <;> cases v <;> first
      | rfl
      | (exfalso; simp [isDict] at h2)
  · intro a expectedDict msg actualFields hbody
    simp only [assert_json_contains, hbody, Option.getD_some]
    cases hd : dictContains actualFields expectedDict <;> simp [hd]

/-- Witness for C7: the characterizations applied at the example's
actual document. -/
theorem c7_json_contains_subset_witness :
    (∀ kv ∈ [("headers", Json.obj [("User-Agent", Json.str "x")])],
      pairContains c7Actual kv.1 kv.2 = true)
  ∧ pairContains c7Actual "missing" Json.null = false
  ∧ pairContains c7Actual "headers" (Json.obj [("User-Agent", Json.str "x")])
      = dictContains [("User-Agent", Json.str "x")] [("User-Agent", Json.str "x")]
  ∧ pairContains c7Actual "args" (Json.num 3) = jsonBeq (Json.obj []) (Json.num 3)
  ∧ (assert_json_contains c7Assertor
      [("headers", Json.obj [("User-Agent", Json.str "x")])] "" = .ok () ↔
      dictContains c7Actual [("headers", Json.obj [("User-Agent", Json.str "x")])] = true) :=
  ⟨(c7_json_contains_subset.1 c7Actual _).mp (by decide),
   c7_json_contains_subset.2.1 c7Actual "missing" Json.null rfl,
   c7_json_contains_subset.2.2.1 c7Actual "headers" _ _ rfl,
   c7_json_contains_subset.2.2.2.1 c7Actual "args" _ (Json.num 3) rfl rfl,
   c7_json_contains_subset.2.2.2.2.1 c7Assertor _ "" c7Actual rfl⟩

/-! ## Helper lemmas for the dispatch engine -/

/-- A key held by no entry is not looked up. -/
theorem lookupKey_eq_none_of_forall (k : String) :
    ∀ (l : Record), (∀ p ∈ l, p.1 ≠ k) → lookupKey k l = none
  | [], _ => rfl
  | (k', v) :: rest, h => by
    have hk : k' ≠ k := h (k', v) (List.mem_cons_self _ _)
    simp only [lookupKey, if_neg hk]
    exact lookupKey_eq_none_of_forall k rest (fun p hp => h p (List.mem_cons_of_mem _ hp))

/-- Popping a key from a dict with pairwise-distinct keys removes it:
the remaining dict no longer holds the key. -/
theorem popKey_removes (k : String) :
    ∀ (item : Record) (v : Json) (item' : Record),
      (item.map Prod.fst).Nodup → popKey k item = some (v, item') →
      lookupKey k item' = none := by
  intro item
  induction item with
  | nil => intro v item' _ hp; exact absurd hp (by simp [popKey])
  | cons p rest ih =>
    intro v item' hnd hp
    obtain ⟨k', v'⟩ := p
    rw [List.map_cons, List.nodup_cons] at hnd
    unfold popKey at hp
    by_cases hk : k' = k
    · rw [if_pos hk] at hp
      simp only [Option.some.injEq, Prod.mk.injEq] at hp
      obtain ⟨-, hi⟩ := hp
      subst hi
      refine lookupKey_eq_none_of_forall k rest (fun q hq hqk => hnd.1 ?_)
      rw [hk, ← hqk]
      exact List.mem_map.mpr ⟨q, hq, rfl⟩
    · rw [if_neg hk] at hp
      cases hr : popKey k rest with
      | none => rw [hr] at hp; exact absurd hp (by simp)
      | some q =>
        obtain ⟨v2, rest2⟩ := q
        rw [hr] at hp
        simp only [Option.some.injEq, Prod.mk.injEq] at hp
        obtain ⟨-, rfl⟩ := hp
        simp only [lookupKey, if_neg hk]
        exact ih v2 rest2 hnd.2 hr

/-- A key the dict does not hold cannot be popped. -/
theorem popKey_eq_none_of_lookup_none (k : String) :
    ∀ (l : Record), lookupKey k l = none → popKey k l = none := by
  intro l
  induction l with
  | nil => intro _; rfl
  | cons p rest ih =>
    intro h
    obtain ⟨k', v'⟩ := p
    by_cases hk : k' = k
    · rw [lookupKey, if_pos hk] at h; exact absurd h (by simp)
    · rw [lookupKey, if_neg hk] at h
      unfold popKey
      rw [if_neg hk, ih h]

/-- A record with no `type` key raises the missing-`type` error without
dispatching, and the record is left as it is. -/
theorem processRecord_of_popKey_none (evalOf : String → Json → Option (List Json))
    (b : Assertor) (idx : Nat) (item : Record) (h : popKey "type" item = none) :
    processRecord evalOf b idx item = ⟨.error (.missingType idx item), none, item⟩ := by
  unfold processRecord
  rw [h]

/-- After a successful pop, whatever the dispatch does, the caller's
record has lost its `type` entry. -/
theorem processRecord_record (evalOf : String → Json → Option (List Json))
    (b : Assertor) (idx : Nat) (item : Record) (tv : Json) (item' : Record)
    (hp : popKey "type" item = some (tv, item')) :
    (processRecord evalOf b idx item).record = item' := by
  unfold processRecord
  rw [hp]
  cases tv with
  | str ty =>
    by_cases hs : supportedAssertionTypes.contains ty = true
    · simp only [if_pos hs]
      cases dispatchAssertion evalOf b ty item' <;> rfl
    · simp only [if_neg hs]
  | null => rfl
  | bool b2 => rfl
  | num n => rfl
  | arr l => rfl
  | obj o => rfl

/-- A record that processed without error necessarily popped its
`type` key. -/
theorem processRecord_ok_pop (evalOf : String → Json → Option (List Json))
    (b : Assertor) (idx : Nat) (item : Record)
    (h : (processRecord evalOf b idx item).outcome = .ok ()) :
    ∃ tv item', popKey "type" item = some (tv, item') := by
  cases hp : popKey "type" item with
  | some q =>
    obtain ⟨tv, item'⟩ := q
    exact ⟨tv, item', rfl⟩
  | none =>
    rw [processRecord_of_popKey_none evalOf b idx item hp] at h
    exact absurd h (by simp)

/-- After a fully successful batch run, every record in the caller's
list has lost its `type` key. -/
theorem run_success_records_no_type (evalOf : String → Json → Option (List Json))
    (b : Assertor) :
    ∀ (cfg : List Record) (idx : Nat),
      (assert_from_config_aux evalOf b idx cfg).outcome = .ok () →
      (∀ r ∈ cfg, (r.map Prod.fst).Nodup) →
      ∀ r' ∈ (assert_from_config_aux evalOf b idx cfg).records,
        lookupKey "type" r' = none := by
  intro cfg
  induction cfg with
  | nil => intro idx _ _ r' hr; simp [assert_from_config_aux] at hr
  | cons item rest ih =>
    intro idx hok hnd r' hr
    unfold assert_from_config_aux at hok hr
    cases ho : (processRecord evalOf b idx item).outcome with
    | error er => rw [ho] at hok; exact absurd hok (by simp)
    | ok u =>
      cases u
      rw [ho] at hok hr
      simp only [List.mem_cons] at hr
      rcases hr with rfl | hr
      · obtain ⟨tv, item', hp⟩ := processRecord_ok_pop evalOf b idx item ho
        rw [processRecord_record evalOf b idx item tv item' hp]
        exact popKey_removes "type" item tv item'
          (hnd item (List.mem_cons_self _ _)) hp
      · exact ih (idx + 1) hok (fun r hr2 => hnd r (List.mem_cons_of_mem _ hr2)) r' hr

/-- The record list a run of a nonempty config leaves behind starts
with the first record as mutated by its processing. -/
theorem run_records_cons (evalOf : String → Json → Option (List Json))
    (b : Assertor) (idx : Nat) (item : Record) (rest : List Record) :
    ∃ tail, (assert_from_config_aux evalOf b idx (item :: rest)).records
      = (processRecord evalOf b idx item).record :: tail := by
  unfold assert_from_config_aux
  cases ho : (processRecord evalOf b idx item).outcome with
  | ok u => exact ⟨_, rfl⟩
  | error er => exact ⟨rest, rfl⟩

/-- C1 (code bug): the lazily built class registry caches bound methods
of the first-constructed assertor, so a second assertor's
`assert_from_config` reads the FIRST assertor's response.  Concretely:
the registry the second construction leaves is still the first
instance's; the second assertor's batch run of `c1Config` (status 200,
`v == 1`) passes although its own response is a 404 with `v == 2` — its
own bound methods reject both records — and the run's outcome equals a
run invoked on the first assertor. -/
theorem c1_shared_registry_reads_first_response :
    c1Second.2 = some c1First.1
  ∧ (assert_from_config noJsonPath c1Second.2 c1Second.1 c1Config).outcome = .ok ()
  ∧ assert_status_code c1Second.1 (Json.num 200) ""
      = .error (.assertionFailed ⟨"req-b", "响应状态码", Json.num 200, Json.num 404, ""⟩)
  ∧ assert_json_field c1Second.1 "v" (Json.num 1) Json.null ""
      = .error (.assertionFailed ⟨"req-b", "JSON字段[v]", Json.num 1, Json.num 2, ""⟩)
  ∧ (assert_from_config noJsonPath c1Second.2 c1Second.1 c1Config).outcome
      = (assert_from_config noJsonPath c1First.2 c1First.1 c1Config).outcome :=
  ⟨rfl, rfl, rfl, rfl, rfl⟩

/-- C4: `assert_from_config` evaluates records strictly in list order
and fails fast.  The spec's two-record example errors on the second
record with a configuration error carrying the full list of valid type
names, after the first record's assertion has executed (the trace holds
exactly `(0, "status_code")`); a record whose processing errors
determines the run's outcome and trace no matter what follows it; and
an error raised by an invoked operation is wrapped with the record's
index and type, the original error chained. -/
theorem c4_dispatch_order_fail_fast_wrapping :
    assert_from_config noJsonPath soloAssertor.2 soloAssertor.1 c4Config
      = ⟨.error (.unsupportedType 1 (Json.str "unknown_kind")
          ["status_code", "is_ok", "is_redirect", "is_permanent_redirect",
           "json_field", "json_path", "json_contains", "response_header", "cookie",
           "redirect_count", "redirect_chain", "content_contains", "content_length",
           "response_url", "query_param", "elapsed_less_than"] []),
         [(0, "status_code")],
         [[("expected_code", Json.num 200)], []]⟩
  ∧ (∀ (evalOf : String → Json → Option (List Json)) (b : Assertor) (idx : Nat)
        (item : Record) (rest rest' : List Record) (er : ConfigErr),
      (processRecord evalOf b idx item).outcome = .error er →
        (assert_from_config_aux evalOf b idx (item :: rest)).outcome = .error er
      ∧ (assert_from_config_aux evalOf b idx (item :: rest)).executed
          = execEntry idx (processRecord evalOf b idx item).invoked
      ∧ (assert_from_config_aux evalOf b idx (item :: rest)).executed
          = (assert_from_config_aux evalOf b idx (item :: rest')).executed
      ∧ (assert_from_config_aux evalOf b idx (item :: rest)).outcome
          = (assert_from_config_aux evalOf b idx (item :: rest')).outcome)
  ∧ (∀ (evalOf : String → Json → Option (List Json)) (b : Assertor) (idx : Nat)
        (item : Record) (ty : String) (item' : Record) (er : PyErr),
      popKey "type" item = some (Json.str ty, item') →
      supportedAssertionTypes.contains ty = true →
      dispatchAssertion evalOf b ty item' = .error er →
      (processRecord evalOf b idx item).outcome
        = .error (.runtimeWrapped idx ty item' er)) := by
  refine ⟨rfl, ?_, ?_⟩
  · intro evalOf b idx item rest rest' er h
    unfold assert_from_config_aux
    rw [h]
    exact ⟨rfl, rfl, rfl, rfl⟩
  · intro evalOf b idx item ty item' er hp hs hd
    unfold processRecord
    rw [hp]
    simp only [if_pos hs, hd]

/-- Witness for C4: a record whose `status_code` assertion fails on a
200 response is wrapped with its index and type, and a run stops there
with only that operation in the trace, whatever follows. -/
theorem c4_dispatch_order_fail_fast_wrapping_witness :
    (processRecord noJsonPath soloAssertor.1 0
      [("type", Json.str "status_code"), ("expected_code", Json.num 500)]).outcome
      = .error (.runtimeWrapped 0 "status_code" [("expected_code", Json.num 500)]
          (.assertionFailed ⟨"req-c4", "响应状态码", Json.num 500, Json.num 200, ""⟩))
  ∧ (assert_from_config_aux noJsonPath soloAssertor.1 0
      [[("type", Json.str "status_code"), ("expected_code", Json.num 500)],
       [("type", Json.str "is_ok")]]).executed
      = execEntry 0 (processRecord noJsonPath soloAssertor.1 0
          [("type", Json.str "status_code"), ("expected_code", Json.num 500)]).invoked := by
  constructor
  · exact c4_dispatch_order_fail_fast_wrapping.2.2 noJsonPath soloAssertor.1 0
      _ "status_code" _ _ rfl rfl rfl
  · exact (c4_dispatch_order_fail_fast_wrapping.2.1 noJsonPath soloAssertor.1 0
      [("type", Json.str "status_code"), ("expected_code", Json.num 500)]
      [[("type", Json.str "is_ok")]] []
      (.runtimeWrapped 0 "status_code" [("expected_code", Json.num 500)]
        (.assertionFailed ⟨"req-c4", "响应状态码", Json.num 500, Json.num 200, ""⟩))
      rfl).2.1

/-- C8: `assert_from_config` mutates its input in place: processing pops
the `type` key from the caller's own record dict, so after a successful
run every record has lost its `type` key, and replaying the very same
(mutated) record list raises the missing-`type` configuration error on
its first record instead of re-executing the assertions — shown in
general and on the concrete one-record list `c8Config`. -/
theorem c8_records_mutated_in_place :
    (∀ (item : Record) (tv : Json) (item' : Record),
      (item.map Prod.fst).Nodup → popKey "type" item = some (tv, item') →
      lookupKey "type" item' = none)
  ∧ (∀ (evalOf : String → Json → Option (List Json)) (b : Assertor)
        (cfg : List Record) (idx : Nat),
      (assert_from_config_aux evalOf b idx cfg).outcome = .ok () →
      (∀ r ∈ cfg, (r.map Prod.fst).Nodup) →
      ∀ r' ∈ (assert_from_config_aux evalOf b idx cfg).records,
        lookupKey "type" r' = none)
  ∧ (∀ (evalOf evalOf2 : String → Json → Option (List Json)) (b : Assertor)
        (reg2 : Option Assertor) (self2 : Assertor) (item : Record)
        (rest : List Record),
      (assert_from_config_aux evalOf b 0 (item :: rest)).outcome = .ok () →
      (∀ r ∈ item :: rest, (r.map Prod.fst).Nodup) →
      ∃ r2 tail,
        (assert_from_config_aux evalOf b 0 (item :: rest)).records = r2 :: tail
      ∧ (assert_from_config evalOf2 reg2 self2 (r2 :: tail)).outcome
          = .error (.missingType 0 r2))
  ∧ (assert_from_config noJsonPath soloAssertor.2 soloAssertor.1 c8Config).outcome = .ok ()
  ∧ (assert_from_config noJsonPath soloAssertor.2 soloAssertor.1 c8Config).records
      = [[("expected_code", Json.num 200)]]
  ∧ (assert_from_config noJsonPath soloAssertor.2 soloAssertor.1
      [[("expected_code", Json.num 200)]]).outcome
      = .error (.missingType 0 [("expected_code", Json.num 200)]) := by
  refine ⟨popKey_removes "type", run_success_records_no_type, ?_, rfl, rfl, rfl⟩
  intro evalOf evalOf2 b reg2 self2 item rest hok hnd
  obtain ⟨tail, hrec⟩ := run_records_cons evalOf b 0 item rest
  refine ⟨(processRecord evalOf b 0 item).record, tail, hrec, ?_⟩
  have hhd : lookupKey "type" (processRecord evalOf b 0 item).record = none := by
    refine run_success_records_no_type evalOf b (item :: rest) 0 hok hnd
      (processRecord evalOf b 0 item).record ?_
    rw [hrec]
    exact List.mem_cons_self _ _
  have hpop : popKey "type" (processRecord evalOf b 0 item).record = none :=
    popKey_eq_none_of_lookup_none "type" _ hhd
  show (assert_from_config_aux evalOf2 (reg2.getD self2) 0 _).outcome = _
  unfold assert_from_config_aux
  rw [processRecord_of_popKey_none evalOf2 (reg2.getD self2) 0 _ hpop]

/-- Witness for C8 on the concrete one-record list: its record, once
popped, no longer holds `type`, and the replay of the mutated list
errors on record 0. -/
theorem c8_records_mutated_in_place_witness :
    lookupKey "type" [("expected_code", Json.num 200)] = none
  ∧ (∃ r2 tail,
      (assert_from_config_aux noJsonPath (soloAssertor.2.getD soloAssertor.1) 0 c8Config).records
        = r2 :: tail
    ∧ (assert_from_config noJsonPath soloAssertor.2 soloAssertor.1 (r2 :: tail)).outcome
        = .error (.missingType 0 r2)) := by
  constructor
  · exact c8_records_mutated_in_place.1
      [("type", Json.str "status_code"), ("expected_code", Json.num 200)]
      (Json.str "status_code") [("expected_code", Json.num 200)] (by decide) rfl
  · exact c8_records_mutated_in_place.2.2.1 noJsonPath noJsonPath
      (soloAssertor.2.getD soloAssertor.1) soloAssertor.2 soloAssertor.1
      [("type", Json.str "status_code"), ("expected_code", Json.num 200)] [] rfl
      (by intro r hr; simp only [List.mem_singleton] at hr; subst hr; decide)

end AswBase

